import Mathlib

/-!
Verification of the viva-examination core of the `aibot` repository.

The Python source is shallowly embedded: dictionaries become association
lists, database rows become records, wall-clock instants become explicit
parameters, and the pseudo-random shuffle is quantified over the
permutation it produces (every seed yields some permutation, so a theorem
over all permutations covers all seeds).

Sources embedded here:
  * services/viva_service.py  - shuffle_options, calculate_score,
    _generate_mcq_direct_perplexity
  * services/gemini_service.py - generate_mcq_questions and its fallback
  * models/user.py            - VivaSession.finalize_violation,
    VivaSchedule.is_active_now
  * routes/api_routes.py      - submit_answer, submit_viva, report_violation
  * routes/viva_routes.py     - save_marks
  * routes/student_routes.py  - start_viva
-/

/-! ## Association lists (Python dict / first-row query semantics) -/

/-- Lookup of the first entry with the given key, mirroring both Python
dict access and SQLAlchemy `.filter_by(...).first()`. -/
def alookup {α β : Type} [DecidableEq α] (k : α) : List (α × β) → Option β
  | [] => none
  | (k', v) :: rest => if k' = k then some v else alookup k rest

/-- Python `dict.get(k, dflt)`. -/
def alookupD {α β : Type} [DecidableEq α] (k : α) (l : List (α × β)) (dflt : β) : β :=
  (alookup k l).getD dflt

/-- The keys of an association list. -/
def akeys {α β : Type} (l : List (α × β)) : List α :=
  l.map Prod.fst

theorem alookup_mem {α β : Type} [DecidableEq α] {k : α} {v : β} :
    ∀ {l : List (α × β)}, alookup k l = some v → (k, v) ∈ l := by
  intro l
  induction l with
  | nil => intro h; simp [alookup] at h
  | cons hd tl ih =>
    intro h
    obtain ⟨k', v'⟩ := hd
    by_cases hk : k' = k
    · subst hk
      simp [alookup] at h
      subst h
      exact List.mem_cons_self _ _
    · simp [alookup, hk] at h
      exact List.mem_cons_of_mem _ (ih h)

theorem alookup_isSome_of_mem_akeys {α β : Type} [DecidableEq α] {k : α} :
    ∀ {l : List (α × β)}, k ∈ akeys l → ∃ v, alookup k l = some v := by
  intro l
  induction l with
  | nil => intro h; simp [akeys] at h
  | cons hd tl ih =>
    intro h
    obtain ⟨k', v'⟩ := hd
    by_cases hk : k' = k
    · exact ⟨v', by simp [alookup, hk]⟩
    · have h2 : k ∈ k' :: akeys tl := by simpa [akeys] using h
      rcases List.mem_cons.mp h2 with h1 | h1
      · exact absurd h1.symm hk
      · obtain ⟨v, hv⟩ := ih h1
        exact ⟨v, by simp [alookup, hk, hv]⟩

/-! ## Option shuffling (services/viva_service.py, shuffle_options)

`shuffle_options(options, seed)` seeds Python's RNG and permutes
`list(options.items())` in place, then walks the permuted list and
reassigns the letters A,B,C,D in order, recording the old-letter to
new-letter mapping.  The RNG is embedded by quantifying over the permuted
list `items`: for every seed, `random.shuffle` produces some permutation
of the items, so a theorem over all permutations of `options` covers all
seeds. -/

/-- The letter labels reassigned after the shuffle
(`letters = ['A', 'B', 'C', 'D']` in the source). -/
def letters : List String := ["A", "B", "C", "D"]

/-- The `new_options` accumulation of the loop in `shuffle_options`:
walk the (already permuted) items and label them with successive letters. -/
def assignOptions : List (String × String) → List String → List (String × String)
  | [], _ => []
  | _ :: _, [] => []
  | (_, text) :: rest, l :: ls => (l, text) :: assignOptions rest ls

/-- The `letter_mapping` accumulation of the loop in `shuffle_options`:
map each item's old letter to the letter of its new position. -/
def assignMapping : List (String × String) → List String → List (String × String)
  | [], _ => []
  | _ :: _, [] => []
  | (old, _) :: rest, l :: ls => (old, l) :: assignMapping rest ls

/-- `shuffle_options`, applied to the permuted item list.  Returns
(`new_options`, `letter_mapping`). -/
def shuffle_options (items : List (String × String)) :
    List (String × String) × List (String × String) :=
  (assignOptions items letters, assignMapping items letters)

theorem assign_lookup (items : List (String × String)) (ls : List String)
    (hnk : (akeys items).Nodup) (hnl : ls.Nodup) (hlen : items.length ≤ ls.length)
    {old t : String} (hmem : (old, t) ∈ items) :
    ∃ l, l ∈ ls ∧ alookup old (assignMapping items ls) = some l ∧
      alookup l (assignOptions items ls) = some t := by
  induction items generalizing ls with
  | nil => simp at hmem
  | cons hd rest ih =>
    obtain ⟨o₀, t₀⟩ := hd
    cases ls with
    | nil => simp at hlen
    | cons l₀ ls' =>
      have hnk' : o₀ ∉ akeys rest ∧ (akeys rest).Nodup := by
        simpa [akeys] using hnk
      have hnl' : l₀ ∉ ls' ∧ ls'.Nodup := by
        simpa using hnl
      rcases List.mem_cons.mp hmem with heq | hmem'
      · injection heq with ho ht
        subst ho; subst ht
        refine ⟨l₀, List.mem_cons_self _ _, ?_, ?_⟩
        · simp [assignMapping, alookup]
        · simp [assignOptions, alookup]
      · have hne : o₀ ≠ old := by
          intro hcontra
          exact hnk'.1 (hcontra ▸ (List.mem_map.mpr ⟨(old, t), hmem', rfl⟩))
        obtain ⟨l, hl_mem, hl_map, hl_opt⟩ :=
          ih ls' hnk'.2 hnl'.2 (by simpa using Nat.le_of_succ_le_succ hlen) hmem'
        refine ⟨l, List.mem_cons_of_mem _ hl_mem, ?_, ?_⟩
        · simp [assignMapping, alookup, hne, hl_map]
        · have hl₀ : l₀ ≠ l := fun hcontra => hnl'.1 (hcontra ▸ hl_mem)
          simp [assignOptions, alookup, hl₀, hl_opt]

/-- C1: Shuffling preserves answer-key correctness.  For every 4-entry
options mapping labeled by A-D, every label chosen as the correct answer,
and every permutation `items` of the options (hence every seed passed to
`shuffle_options`), looking the remapped correct label
(`letter_mapping.get(original_correct, original_correct)`) up in the
shuffled options yields exactly the text the original correct label held
before shuffling. -/
theorem shuffle_preserves_correct_answer
    (options items : List (String × String)) (correct : String)
    (hkeys : (akeys options).Perm letters)
    (hperm : items.Perm options)
    (hc : correct ∈ akeys options) :
    alookup (alookupD correct (shuffle_options items).2 correct)
        (shuffle_options items).1
      = alookup correct options := by
  obtain ⟨t, ht⟩ := alookup_isSome_of_mem_akeys hc
  have hmem_opts : (correct, t) ∈ options := alookup_mem ht
  have hmem_items : (correct, t) ∈ items := hperm.mem_iff.mpr hmem_opts
  have hkeys_perm : (akeys items).Perm (akeys options) := hperm.map Prod.fst
  have hnk : (akeys items).Nodup :=
    (hkeys_perm.trans hkeys).nodup_iff.mpr (by decide)
  have hlen : items.length ≤ letters.length := by
    have h1 : items.length = options.length := hperm.length_eq
    have h2 : (akeys options).length = letters.length := hkeys.length_eq
    simp only [akeys, List.length_map] at h2
    omega
  obtain ⟨l, _, hl_map, hl_opt⟩ :=
    assign_lookup items letters hnk (by decide) hlen hmem_items
  simp only [shuffle_options, alookupD, hl_map, Option.getD_some]
  rw [hl_opt, ht]

/-- Witness for C1 at a concrete shuffled question: options A-D with
distinct texts, shuffle permutation reversing the order, correct label B. -/
theorem shuffle_preserves_correct_answer_witness :
    alookup
        (alookupD "B"
          (shuffle_options [("D", "delta"), ("C", "gamma"), ("B", "beta"), ("A", "alpha")]).2 "B")
        (shuffle_options [("D", "delta"), ("C", "gamma"), ("B", "beta"), ("A", "alpha")]).1
      = alookup "B" [("A", "alpha"), ("B", "beta"), ("C", "gamma"), ("D", "delta")] :=
  shuffle_preserves_correct_answer
    [("A", "alpha"), ("B", "beta"), ("C", "gamma"), ("D", "delta")]
    [("D", "delta"), ("C", "gamma"), ("B", "beta"), ("A", "alpha")]
    "B" (by decide) (by decide) (by decide)

/-! ## Scoring (services/viva_service.py, calculate_score)

`calculate_score(questions, answers)` walks the question list, looks each
question's id up in the (string-keyed) answers dict, and counts 1 mark per
question whose test `selected_answer and correct_answer and
selected_answer == correct_answer` passes.  Python truthiness makes `None`
(missing answer) and the empty string falsy. -/

structure Question where
  id : Nat
  question : String
  options : List (String × String)
  correct_answer : String
deriving Repr, DecidableEq

structure QuestionScore where
  question_id : String
  correct_answer : String
  selected_answer : Option String
  is_correct : Bool
deriving Repr, DecidableEq

structure ScoreResult where
  score : Nat
  total : Nat
  results : List QuestionScore
deriving Repr, DecidableEq

/-- The test `selected_answer and correct_answer and selected_answer ==
correct_answer`: a missing (`None`) or empty selected answer and an empty
correct label are falsy; the string comparison is exact. -/
def isCorrectAnswer (selected : Option String) (correct : String) : Bool :=
  match selected with
  | none => false
  | some s => (s != "") && (correct != "") && (s == correct)

/-- One iteration of the loop in `calculate_score`: the record appended to
`results`. -/
def scoreQuestion (answers : List (String × String)) (q : Question) : QuestionScore :=
  let question_id := toString q.id
  let selected_answer := alookup question_id answers
  { question_id := question_id,
    correct_answer := q.correct_answer,
    selected_answer := selected_answer,
    is_correct := isCorrectAnswer selected_answer q.correct_answer }

/-- `calculate_score`: the running `score` accumulator equals the number of
iterations whose `is_correct` test passed; `total = len(questions)`.
Answer keys are strings (the source normalizes them with `str(k)`). -/
def calculate_score (questions : List Question) (answers : List (String × String)) :
    ScoreResult :=
  let results := questions.map (scoreQuestion answers)
  { score := (results.filter (fun r => r.is_correct)).length,
    total := questions.length,
    results := results }

/-- The specification-side predicate: the submitted answer for this
question equals the question's correct label. -/
def answerMatches (answers : List (String × String)) (q : Question) : Bool :=
  alookup (toString q.id) answers == some q.correct_answer

theorem isCorrectAnswer_eq_match (selected : Option String) (correct : String)
    (h : correct ≠ "") :
    isCorrectAnswer selected correct = (selected == some correct) := by
  cases selected with
  | none => rfl
  | some s =>
    by_cases hs : s = correct
    · subst hs
      simp [isCorrectAnswer, h]
    · simp [isCorrectAnswer, hs]

/-- C4: Scoring correctness.  For every question list (each question
carrying a nonempty correct label, as the A-D data model guarantees) and
every answer map, `calculate_score` returns `total = len(questions)` and
`score` equal to the number of questions whose submitted answer equals the
question's correct label; a question with no submitted answer simply fails
the match and contributes 0. -/
theorem calculate_score_counts_matches (questions : List Question)
    (answers : List (String × String))
    (h : ∀ q ∈ questions, q.correct_answer ≠ "") :
    (calculate_score questions answers).total = questions.length ∧
    (calculate_score questions answers).score
      = (questions.filter (answerMatches answers)).length := by
  refine ⟨rfl, ?_⟩
  simp only [calculate_score, List.filter_map, List.length_map]
  congr 1
  apply List.filter_congr
  intro q hq
  simp only [Function.comp_apply, scoreQuestion, answerMatches]
  exact isCorrectAnswer_eq_match _ _ (h q hq)

/-- Standard option block shared by the concrete examples. -/
def stdOptions : List (String × String) :=
  [("A", "Option A"), ("B", "Option B"), ("C", "Option C"), ("D", "Option D")]

/-- Ten questions with known correct labels. -/
def q10 : List Question :=
  [ { id := 1, question := "Q1", options := stdOptions, correct_answer := "A" },
    { id := 2, question := "Q2", options := stdOptions, correct_answer := "B" },
    { id := 3, question := "Q3", options := stdOptions, correct_answer := "C" },
    { id := 4, question := "Q4", options := stdOptions, correct_answer := "D" },
    { id := 5, question := "Q5", options := stdOptions, correct_answer := "A" },
    { id := 6, question := "Q6", options := stdOptions, correct_answer := "B" },
    { id := 7, question := "Q7", options := stdOptions, correct_answer := "A" },
    { id := 8, question := "Q8", options := stdOptions, correct_answer := "B" },
    { id := 9, question := "Q9", options := stdOptions, correct_answer := "C" },
    { id := 10, question := "Q10", options := stdOptions, correct_answer := "D" } ]

/-- An answer map covering 7 of the 10 questions, exactly 6 of them
matching (question 7 answered "C" against correct label "A"). -/
def a7 : List (String × String) :=
  [("1", "A"), ("2", "B"), ("3", "C"), ("4", "D"), ("5", "A"), ("6", "B"), ("7", "C")]

/-- Witness for C4: the 10-question, 7-answer, 6-match instance scores
6 out of 10. -/
theorem calculate_score_counts_matches_witness :
    ((∀ q ∈ q10, q.correct_answer ≠ "") ∧
      (calculate_score q10 a7).total = q10.length ∧
      (calculate_score q10 a7).score = (q10.filter (answerMatches a7)).length) ∧
    (calculate_score q10 a7).score = 6 ∧ (calculate_score q10 a7).total = 10 :=
  ⟨⟨by decide, calculate_score_counts_matches q10 a7 (by decide)⟩, by decide, by decide⟩

/-! ## Case sensitivity of the scorer (C5)

The comparison in `calculate_score` is `selected_answer == correct_answer`
with no case folding (unlike `GeminiService.evaluate_answers`, which
upper-cases both sides). -/

/-- `str.upper()` on ASCII answer letters: upper-case every character. -/
def pyUpper (s : String) : String :=
  String.mk (s.data.map Char.toUpper)

/-- Upper-case every submitted answer letter (the transformation the claim
quantifies over). -/
def upperAnswers (answers : List (String × String)) : List (String × String) :=
  answers.map (fun kv => (kv.1, pyUpper kv.2))

def csQuestion : Question :=
  { id := 1, question := "q", options := stdOptions, correct_answer := "A" }

/-- C5 counterexample: with correct label "A" and submitted answer "a",
`calculate_score` gives 0, while the upper-cased answer map gives 1 - the
scores differ, so the comparison is not case-insensitive. -/
theorem calculate_score_not_case_insensitive :
    (calculate_score [csQuestion] [("1", "a")]).score = 0 ∧
    (calculate_score [csQuestion] (upperAnswers [("1", "a")])).score = 1 ∧
    (calculate_score [csQuestion] [("1", "a")]).score
      ≠ (calculate_score [csQuestion] (upperAnswers [("1", "a")])).score := by
  refine ⟨by decide, by decide, by decide⟩

theorem upperAnswers_eq_self {answers : List (String × String)}
    (h : ∀ kv ∈ answers, pyUpper (Prod.snd kv) = Prod.snd kv) :
    upperAnswers answers = answers := by
  have hmap : answers.map (fun kv => (kv.1, pyUpper kv.2)) = answers.map id := by
    apply List.map_congr_left
    intro kv hkv
    have hkv2 := h kv hkv
    cases kv
    simp_all
  simpa [upperAnswers] using hmap

/-- C5 amended: `calculate_score` compares the submitted answer with the
correct label by exact (case-sensitive) string equality, so a lower-case
answer never matches an upper-case label and upper-casing an answer can
change the score; the score is invariant under upper-casing exactly on
answer maps whose entries are already upper-case (e.g. the letters A-D). -/
theorem calculate_score_upper_invariant (questions : List Question)
    (answers : List (String × String))
    (h : ∀ kv ∈ answers, pyUpper (Prod.snd kv) = Prod.snd kv) :
    calculate_score questions (upperAnswers answers) = calculate_score questions answers := by
  rw [upperAnswers_eq_self h]

/-- Witness for the amended C5 at an already-upper-case answer map. -/
theorem calculate_score_upper_invariant_witness :
    calculate_score q10 (upperAnswers a7) = calculate_score q10 a7 :=
  calculate_score_upper_invariant q10 a7 (by decide)

/-! ## Viva sessions (models/user.py) -/

/-- The `viva_sessions` row.  Timestamps are abstract ticks; `Option`
models nullable columns. -/
structure VivaSession where
  id : Nat
  student_id : Nat
  schedule_id : Nat
  experiment_id : Nat
  status : String
  total_marks : Int
  obtained_marks : Int
  violation_detected : Bool
  violation_reason : Option String
  violation_count : Int
  started_at : Option Nat
  completed_at : Option Nat
deriving Repr, DecidableEq

/-- `VivaSession.finalize_violation(reason)`: set the violation flag and
reason, zero the marks, move to `violated`, stamp `completed_at`. -/
def finalize_violation (s : VivaSession) (reason : String) (now : Nat) : VivaSession :=
  { s with violation_detected := true,
           violation_reason := some reason,
           obtained_marks := 0,
           status := "violated",
           completed_at := some now }

/-- The terminal-status test used by the finalization routes:
`viva.status in ['completed', 'violated']`. -/
def isTerminal (s : VivaSession) : Bool :=
  s.status == "completed" || s.status == "violated"

/-- C3: Violation finalization zeroes marks.  For every session - whatever
its status, its current `obtained_marks`, and however many (and however
correct) `StudentAnswer` rows exist for it, which live in a separate table
this method never reads - `finalize_violation(reason)` leaves
`obtained_marks = 0`, `status = 'violated'`, `violation_detected = true`,
`violation_reason = reason`, and `completed_at` set. -/
theorem finalize_violation_zeroes_marks (s : VivaSession) (reason : String) (now : Nat) :
    (finalize_violation s reason now).obtained_marks = 0 ∧
    (finalize_violation s reason now).status = "violated" ∧
    (finalize_violation s reason now).violation_detected = true ∧
    (finalize_violation s reason now).violation_reason = some reason ∧
    (finalize_violation s reason now).completed_at = some now :=
  ⟨rfl, rfl, rfl, rfl, rfl⟩

/-! ## Terminal transitions (C2)

Three routes can finalize a session:
  * `api_routes.report_violation` - rejects a terminal session
    (`'Viva already finalized'`), otherwise increments `violation_count`
    and calls `finalize_violation`;
  * `api_routes.submit_viva` - rejects a terminal session
    (`'Viva already submitted'`), otherwise writes the evaluated marks and
    moves to `completed`;
  * `viva_routes.save_marks` (lines 237-244) - performs NO terminal-status
    check: whenever the session exists and belongs to the caller it writes
    `obtained_marks = score`, `status = 'completed'`, `completed_at = now`.
The marks evaluation of `submit_viva` (external evaluation service or the
answered-row-count fallback) is passed in as the computed `marks`. -/

/-- `api_routes.report_violation` applied to the session row. -/
def report_violation (s : VivaSession) (reason : String) (now : Nat) :
    Except String VivaSession :=
  if isTerminal s then Except.error "Viva already finalized"
  else Except.ok (finalize_violation { s with violation_count := s.violation_count + 1 } reason now)

/-- `api_routes.submit_viva` applied to the session row, with the marks
evaluation abstracted as `marks`. -/
def submit_viva (s : VivaSession) (marks : Int) (now : Nat) :
    Except String VivaSession :=
  if isTerminal s then Except.error "Viva already submitted"
  else Except.ok { s with obtained_marks := marks,
                          status := "completed",
                          completed_at := some now }

/-- The unguarded session update of `viva_routes.save_marks`
(lines 241-243): no terminal-status check at all. -/
def save_marks_update (s : VivaSession) (score : Int) (now : Nat) : VivaSession :=
  { s with obtained_marks := score,
           status := "completed",
           completed_at := some now }

/-- A concrete in-progress session. -/
def exSession : VivaSession :=
  { id := 1, student_id := 7, schedule_id := 3, experiment_id := 2,
    status := "in_progress", total_marks := 10, obtained_marks := 0,
    violation_detected := false, violation_reason := none, violation_count := 0,
    started_at := some 100, completed_at := none }

/-- `exSession` after a successful violation finalization at tick 105. -/
def exViolated : VivaSession :=
  { id := 1, student_id := 7, schedule_id := 3, experiment_id := 2,
    status := "violated", total_marks := 10, obtained_marks := 0,
    violation_detected := true, violation_reason := some "tab switch", violation_count := 1,
    started_at := some 100, completed_at := some 105 }

/-- C2 counterexample: FinalizeWithViolation commits first (marks 0,
status `violated`), yet the later Finalize through the save-marks path
(the cited `viva_routes.save_marks`) is not rejected as AlreadyFinalized:
it changes the session, overwriting `obtained_marks` with 7 and the status
with `completed`. -/
theorem finalize_second_transition_overwrites :
    report_violation exSession "tab switch" 105 = Except.ok exViolated ∧
    save_marks_update exViolated 7 110 ≠ exViolated ∧
    (save_marks_update exViolated 7 110).obtained_marks = 7 ∧
    (save_marks_update exViolated 7 110).status = "completed" ∧
    exViolated.obtained_marks = 0 := by
  refine ⟨rfl, by decide, by decide, by decide, by decide⟩

/-- One Finalize/FinalizeWithViolation call through the two
terminal-guarded routes. -/
inductive FinalizeCall where
  | complete (marks : Int)
  | violation (reason : String)
deriving Repr, DecidableEq

/-- Dispatch one call at one tick. -/
def applyFinalize (s : VivaSession) : FinalizeCall × Nat → Except String VivaSession
  | (FinalizeCall.complete marks, now) => submit_viva s marks now
  | (FinalizeCall.violation reason, now) => report_violation s reason now

/-- Run a sequence of finalize calls, counting the successful ones; a
rejected call leaves the session unchanged. -/
def runFinalizeCalls (s : VivaSession) : List (FinalizeCall × Nat) → Nat × VivaSession
  | [] => (0, s)
  | c :: rest =>
    match applyFinalize s c with
    | Except.ok s' =>
      let r := runFinalizeCalls s' rest
      (r.1 + 1, r.2)
    | Except.error _ => runFinalizeCalls s rest

theorem applyFinalize_terminal {s : VivaSession} (h : isTerminal s = true)
    (c : FinalizeCall × Nat) : ∃ msg, applyFinalize s c = Except.error msg := by
  obtain ⟨call, now⟩ := c
  cases call with
  | complete marks => exact ⟨"Viva already submitted", by simp [applyFinalize, submit_viva, h]⟩
  | violation reason => exact ⟨"Viva already finalized", by simp [applyFinalize, report_violation, h]⟩

theorem applyFinalize_nonterminal {s : VivaSession} (h : isTerminal s = false)
    (c : FinalizeCall × Nat) :
    ∃ s', applyFinalize s c = Except.ok s' ∧ isTerminal s' = true ∧
      (∀ marks now, c = (FinalizeCall.complete marks, now) → s'.obtained_marks = marks) ∧
      (∀ reason now, c = (FinalizeCall.violation reason, now) → s'.obtained_marks = 0) := by
  obtain ⟨call, now⟩ := c
  cases call with
  | complete marks =>
    refine ⟨{ s with obtained_marks := marks, status := "completed", completed_at := some now },
      ?_, rfl, ?_, ?_⟩
    · simp [applyFinalize, submit_viva, h]
    · intro m n hc
      injection hc with h1 h2
      injection h1 with h1
    · intro r n hc
      injection hc with h1 h2
      exact FinalizeCall.noConfusion h1
  | violation reason =>
    refine ⟨finalize_violation { s with violation_count := s.violation_count + 1 } reason now,
      ?_, rfl, ?_, ?_⟩
    · simp [applyFinalize, report_violation, h]
    · intro m n hc
      injection hc with h1 h2
      exact FinalizeCall.noConfusion h1
    · intro r n hc
      rfl

theorem runFinalizeCalls_terminal {s : VivaSession} (h : isTerminal s = true) :
    ∀ calls, runFinalizeCalls s calls = (0, s) := by
  intro calls
  induction calls with
  | nil => rfl
  | cons c rest ih =>
    obtain ⟨msg, hmsg⟩ := applyFinalize_terminal h c
    simp [runFinalizeCalls, hmsg, ih]

/-- C2 amended: restricted to the two terminal-guarded routes
(`api_routes.submit_viva` and `api_routes.report_violation`), the first
call on a non-terminal session is exactly the one that succeeds: it
commits a terminal state whose `obtained_marks` reflect that call alone
(the evaluated marks for Finalize, 0 for FinalizeWithViolation), and every
later call of either kind is rejected with an already-finalized error and
leaves the session unchanged; the save-marks completion path of
`viva_routes.save_marks` is NOT so guarded and overwrites a terminal
session (see the counterexample). -/
theorem guarded_finalize_first_call_wins (s : VivaSession)
    (h : isTerminal s = false) (c : FinalizeCall × Nat) (rest : List (FinalizeCall × Nat)) :
    ∃ s', applyFinalize s c = Except.ok s' ∧
      runFinalizeCalls s (c :: rest) = (1, s') ∧
      isTerminal s' = true ∧
      (∀ marks now, c = (FinalizeCall.complete marks, now) → s'.obtained_marks = marks) ∧
      (∀ reason now, c = (FinalizeCall.violation reason, now) → s'.obtained_marks = 0) := by
  obtain ⟨s', hok, hterm, hcm, hcv⟩ := applyFinalize_nonterminal h c
  refine ⟨s', hok, ?_, hterm, hcm, hcv⟩
  simp [runFinalizeCalls, hok, runFinalizeCalls_terminal hterm rest]

/-- Witness for the amended C2: violation first, then a completion
attempt - exactly one success, final state `exViolated` with marks 0. -/
theorem guarded_finalize_first_call_wins_witness :
    isTerminal exSession = false ∧
    runFinalizeCalls exSession
      [(FinalizeCall.violation "tab switch", 105), (FinalizeCall.complete 7, 110)]
      = (1, exViolated) ∧
    isTerminal exViolated = true ∧ exViolated.obtained_marks = 0 := by
  obtain ⟨s', hok, hrun, hterm, hm, hv⟩ :=
    guarded_finalize_first_call_wins exSession (by decide)
      (FinalizeCall.violation "tab switch", 105) [(FinalizeCall.complete 7, 110)]
  have hconcrete : applyFinalize exSession (FinalizeCall.violation "tab switch", 105)
      = Except.ok exViolated := rfl
  rw [hconcrete] at hok
  have hs' : s' = exViolated := (Except.ok.inj hok).symm
  subst hs'
  exact ⟨by decide, hrun, hterm, hv "tab switch" 105 rfl⟩

/-! ## Schedule window (models/user.py VivaSchedule.is_active_now and
routes/student_routes.py start_viva)

Calendar dates are embedded as integers (ordinal days) and times-of-day as
naturals on which the Python `time` order is the usual one; `now` is the
pair (`today`, `current_time`) the method derives from the clock. -/

/-- The `viva_schedules` row, with `start_time`/`end_time` already parsed
from their `'%H:%M'` strings. -/
structure VivaSchedule where
  id : Nat
  teacher_id : Nat
  experiment_id : Nat
  scheduled_date : Int
  start_time : Nat
  end_time : Nat
  total_slots : Int
  enrolled_count : Int
  status : String
deriving Repr, DecidableEq

/-- `VivaSchedule.is_active_now()`:
`if self.scheduled_date != today: return False` then
`return start <= current_time <= end`. -/
def is_active_now (sched : VivaSchedule) (today : Int) (current_time : Nat) : Bool :=
  if sched.scheduled_date ≠ today then false
  else decide (sched.start_time ≤ current_time ∧ current_time ≤ sched.end_time)

/-- Outcome of `student_routes.start_viva`. -/
inductive StartOutcome where
  /-- no schedule row: "not scheduled yet" -/
  | notScheduled
  /-- window closed, schedule date in the future: "cannot attempt it early" -/
  | windowClosedEarly
  /-- window closed, schedule date in the past: "schedule has expired" -/
  | windowClosedExpired
  /-- window closed, date is today: "only available between start and end" -/
  | windowClosedOutsideHours
  /-- existing terminal session: redirect to its marks page -/
  | alreadyCompleted (viva_id : Nat)
  /-- existing in-progress session: resume it -/
  | resumed (viva_id : Nat)
  /-- a fresh session row was created -/
  | created (session : VivaSession)
deriving Repr, DecidableEq

/-- The fresh `in_progress` session row built by `start_viva`, with the
generated question payload kept opaque to this model. -/
def newVivaSession (new_id student_id : Nat) (sched : VivaSchedule)
    (experiment_id : Nat) (now : Nat) : VivaSession :=
  { id := new_id, student_id := student_id, schedule_id := sched.id,
    experiment_id := experiment_id, status := "in_progress",
    total_marks := 10, obtained_marks := 0,
    violation_detected := false, violation_reason := none, violation_count := 0,
    started_at := some now, completed_at := none }

/-- `student_routes.start_viva`, branch for branch: missing schedule,
window gate with its three flash messages, existing-session dispatch,
fresh session creation. -/
def start_viva (schedule : Option VivaSchedule) (existing : Option VivaSession)
    (student_id experiment_id : Nat) (today : Int) (current_time : Nat)
    (now new_id : Nat) : StartOutcome :=
  match schedule with
  | none => StartOutcome.notScheduled
  | some sched =>
    if is_active_now sched today current_time = false then
      if today < sched.scheduled_date then StartOutcome.windowClosedEarly
      else if sched.scheduled_date < today then StartOutcome.windowClosedExpired
      else StartOutcome.windowClosedOutsideHours
    else
      match existing with
      | some ex =>
        if ex.status = "completed" ∨ ex.status = "violated" then
          StartOutcome.alreadyCompleted ex.id
        else if ex.status = "in_progress" then
          StartOutcome.resumed ex.id
        else
          StartOutcome.created (newVivaSession new_id student_id sched experiment_id now)
      | none =>
        StartOutcome.created (newVivaSession new_id student_id sched experiment_id now)

/-- Does a `start_viva` outcome create a session row? -/
def createsSession : StartOutcome → Bool
  | StartOutcome.created _ => true
  | _ => false

/-- C6: Window gating.  `is_active_now` is true exactly when the
schedule's date equals today's date and the current time-of-day lies in
[start_time, end_time] inclusive (so a past- or future-dated schedule is
closed regardless of the time-of-day); and whenever the window is closed,
`start_viva` returns the matching WindowClosed outcome (early for a future
date, expired for a past date, outside-today's-hours otherwise) and
creates no session. -/
theorem window_gating (sched : VivaSchedule) (today : Int) (current_time : Nat) :
    (is_active_now sched today current_time = true ↔
      (sched.scheduled_date = today ∧
        sched.start_time ≤ current_time ∧ current_time ≤ sched.end_time)) ∧
    (sched.scheduled_date ≠ today → is_active_now sched today current_time = false) ∧
    (∀ existing student_id experiment_id now new_id,
      is_active_now sched today current_time = false →
        (start_viva (some sched) existing student_id experiment_id today current_time now new_id
            = (if today < sched.scheduled_date then StartOutcome.windowClosedEarly
               else if sched.scheduled_date < today then StartOutcome.windowClosedExpired
               else StartOutcome.windowClosedOutsideHours) ∧
          createsSession
            (start_viva (some sched) existing student_id experiment_id today current_time
              now new_id) = false)) := by
  refine ⟨?_, ?_, ?_⟩
  · constructor
    · intro h
      by_cases hd : sched.scheduled_date = today
      · simp [is_active_now, hd] at h
        exact ⟨hd, h⟩
      · simp [is_active_now, hd] at h
    · intro ⟨hd, hs, he⟩
      simp [is_active_now, hd, hs, he]
  · intro hd
    simp [is_active_now, hd]
  · intro existing student_id experiment_id now new_id hclosed
    have hstart : start_viva (some sched) existing student_id experiment_id today current_time
        now new_id
        = (if today < sched.scheduled_date then StartOutcome.windowClosedEarly
           else if sched.scheduled_date < today then StartOutcome.windowClosedExpired
           else StartOutcome.windowClosedOutsideHours) := by
      simp [start_viva, hclosed]
    refine ⟨hstart, ?_⟩
    rw [hstart]
    by_cases h1 : today < sched.scheduled_date
    · simp [h1, createsSession]
    · by_cases h2 : sched.scheduled_date < today
      · simp [h1, h2, createsSession]
      · simp [h1, h2, createsSession]

/-- A concrete schedule: day 10, window [540, 600] (09:00-10:00 in
minutes-of-day). -/
def exSched : VivaSchedule :=
  { id := 1, teacher_id := 2, experiment_id := 3, scheduled_date := 10,
    start_time := 540, end_time := 600, total_slots := 50,
    enrolled_count := 0, status := "scheduled" }

/-- Witness for C6: on day 10 at 599 the window is open; at 601 it is
closed, and `start_viva` returns the outside-hours outcome and creates no
session. -/
theorem window_gating_witness :
    is_active_now exSched 10 599 = true ∧
    is_active_now exSched 10 601 = false ∧
    start_viva (some exSched) none 7 3 10 601 601 1
      = StartOutcome.windowClosedOutsideHours ∧
    createsSession (start_viva (some exSched) none 7 3 10 601 601 1) = false := by
  have hopen := (window_gating exSched 10 599).1.mpr (by refine ⟨rfl, by decide, by decide⟩)
  have hclosed : is_active_now exSched 10 601 = false := by decide
  have hgate := (window_gating exSched 10 601).2.2 none 7 3 601 1 hclosed
  refine ⟨hopen, hclosed, ?_, hgate.2⟩
  have houtcome := hgate.1
  simpa using houtcome

/-! ## Question generation (C7)

Two generators exist.  `GeminiService.generate_mcq_questions` wraps its
external call and JSON parse in try/except: a raised request error, a
`json.JSONDecodeError`, or a validation failure (wrong count, invalid
correct label) all land in `_generate_fallback_questions`, which emits
exactly `num_questions` template questions with options A-D and a correct
label drawn by `random.choice(['A','B','C','D'])` (embedded as the `pick`
oracle).  `_generate_mcq_direct_perplexity` has no such fallback: a failed
request or unparseable content makes it return an error value. -/

/-- A question dict as produced by the Gemini generator
(`question_number` keyed). -/
structure GenQuestion where
  question_number : Nat
  question : String
  options : List (String × String)
  correct_answer : String
deriving Repr, DecidableEq

/-- `random.choice(['A', 'B', 'C', 'D'])`: whichever index the RNG picks,
the result is one of the four letters. -/
def pickLetter : Fin 4 → String
  | 0 => "A"
  | 1 => "B"
  | 2 => "C"
  | 3 => "D"

/-- One template question of `_generate_fallback_questions`. -/
def fallbackQuestion (experiment_title : String) (i : Nat) (p : Fin 4) : GenQuestion :=
  { question_number := i + 1,
    question := "Question " ++ toString (i + 1) ++ " about " ++ experiment_title ++ "?",
    options := [("A", "Option A"), ("B", "Option B"), ("C", "Option C"), ("D", "Option D")],
    correct_answer := pickLetter p }

/-- `GeminiService._generate_fallback_questions`: the loop
`for i in range(num_questions)`. -/
def generate_fallback_questions (experiment_title : String) (num_questions : Nat)
    (pick : Nat → Fin 4) : List GenQuestion :=
  (List.range num_questions).map (fun i => fallbackQuestion experiment_title i (pick i))

/-- Outcome of the external call plus JSON parse inside
`generate_mcq_questions`. -/
inductive GeminiOutcome where
  /-- the model call raised (network failure, timeout, API error) -/
  | apiError
  /-- `json.loads` raised `JSONDecodeError` (unparseable content) -/
  | parseError
  /-- the response parsed into this list of question dicts -/
  | parsed (qs : List GenQuestion)
deriving Repr, DecidableEq

/-- The in-loop renumbering `q['question_number'] = i + 1`. -/
def renumberQuestions (qs : List GenQuestion) : List GenQuestion :=
  qs.enum.map (fun p => { p.2 with question_number := p.1 + 1 })

/-- The validation block of `generate_mcq_questions`: a wrong count or a
correct label outside A-D raises `ValueError`, which the enclosing
try/except turns into the fallback. -/
def validateQuestions (num_questions : Nat) (qs : List GenQuestion) :
    Option (List GenQuestion) :=
  if qs.length ≠ num_questions then none
  else
    let renumbered := renumberQuestions qs
    if renumbered.all (fun q => letters.contains q.correct_answer) then some renumbered
    else none

/-- `GeminiService.generate_mcq_questions`: every failure path falls back
to the template generator. -/
def generate_mcq_questions (experiment_title : String) (num_questions : Nat)
    (outcome : GeminiOutcome) (pick : Nat → Fin 4) : List GenQuestion :=
  match outcome with
  | GeminiOutcome.apiError => generate_fallback_questions experiment_title num_questions pick
  | GeminiOutcome.parseError => generate_fallback_questions experiment_title num_questions pick
  | GeminiOutcome.parsed qs =>
    match validateQuestions num_questions qs with
    | some qs' => qs'
    | none => generate_fallback_questions experiment_title num_questions pick

/-- Well-formedness demanded by the claim: 4 options labeled A-D and a
correct label among them. -/
def wellFormedGenQuestion (q : GenQuestion) : Prop :=
  akeys q.options = letters ∧ q.correct_answer ∈ akeys q.options

theorem pickLetter_mem (p : Fin 4) : pickLetter p ∈ letters := by
  fin_cases p <;> decide

/-- C7 amended (Gemini path): when the external call fails or its content
is unparseable, `generate_mcq_questions` returns exactly `num_questions`
well-formed template questions - never fewer, never an error. -/
theorem gemini_generator_never_under_delivers (experiment_title : String)
    (num_questions : Nat) (pick : Nat → Fin 4) :
    ((generate_mcq_questions experiment_title num_questions GeminiOutcome.apiError pick).length
        = num_questions ∧
      ∀ q ∈ generate_mcq_questions experiment_title num_questions GeminiOutcome.apiError pick,
        wellFormedGenQuestion q) ∧
    ((generate_mcq_questions experiment_title num_questions GeminiOutcome.parseError pick).length
        = num_questions ∧
      ∀ q ∈ generate_mcq_questions experiment_title num_questions GeminiOutcome.parseError pick,
        wellFormedGenQuestion q) := by
  have hlen : (generate_fallback_questions experiment_title num_questions pick).length
      = num_questions := by
    simp [generate_fallback_questions]
  have hwf : ∀ q ∈ generate_fallback_questions experiment_title num_questions pick,
      wellFormedGenQuestion q := by
    intro q hq
    obtain ⟨i, _, rfl⟩ := List.mem_map.mp hq
    exact ⟨rfl, pickLetter_mem (pick i)⟩
  exact ⟨⟨hlen, hwf⟩, ⟨hlen, hwf⟩⟩

/-- Witness for the amended C7 (Gemini path) at a concrete failure: topic
"Titration", 3 requested questions, the RNG always picking index 0 - the
fallback delivers 3 questions and its first question is well-formed. -/
theorem gemini_generator_never_under_delivers_witness :
    (generate_mcq_questions "Titration" 3 GeminiOutcome.apiError (fun _ => (0 : Fin 4))).length
      = 3 ∧
    wellFormedGenQuestion (fallbackQuestion "Titration" 0 (0 : Fin 4)) := by
  have H := gemini_generator_never_under_delivers "Titration" 3 (fun _ => (0 : Fin 4))
  exact ⟨H.1.1, H.1.2 (fallbackQuestion "Titration" 0 (0 : Fin 4)) (by decide)⟩

/-- Outcome of the Perplexity HTTP call plus JSON parse inside
`_generate_mcq_direct_perplexity`. -/
inductive PerplexityOutcome where
  /-- `requests.exceptions.RequestException` (failure or timeout) -/
  | requestFailed (msg : String)
  /-- `json.JSONDecodeError` on the returned content -/
  | invalidJson (msg : String)
  /-- the content parsed into these question dicts -/
  | content (mcqs : List Question)
deriving Repr, DecidableEq

/-- The per-question body of the shuffle loop in
`_generate_mcq_direct_perplexity` (lines 213-220): shuffle the options,
remap the correct label through the letter mapping, reassign the id. -/
def remapShuffledQuestion (q : Question) (items : List (String × String)) (new_id : Nat) :
    Question :=
  let so := shuffle_options items
  { q with options := so.1,
           correct_answer := alookupD q.correct_answer so.2 q.correct_answer,
           id := new_id }

/-- `_generate_mcq_direct_perplexity`, with the RNG's question-order
permutation `qperm` and per-question option permutations `operm` as
oracles.  Request failures and unparseable content return error values -
there is no fallback generator on this path. -/
def generate_mcq_direct_perplexity (hasApiKey : Bool) (outcome : PerplexityOutcome)
    (qperm : List Question → List Question)
    (operm : Nat → List (String × String) → List (String × String)) :
    Except String (List Question) :=
  if hasApiKey = false then Except.error "Perplexity API key not configured"
  else
    match outcome with
    | PerplexityOutcome.requestFailed msg => Except.error ("API request failed: " ++ msg)
    | PerplexityOutcome.invalidJson msg =>
      Except.error ("Failed to parse API response: " ++ msg)
    | PerplexityOutcome.content mcqs =>
      let questions := qperm mcqs
      Except.ok (questions.enum.map
        (fun p => remapShuffledQuestion p.2 (operm p.1 p.2.options) (p.1 + 1)))

/-- C7 counterexample: with the API key configured and the external call
failing (e.g. a timeout), the direct-Perplexity generator - one of the two
generation paths the claim covers - returns an error value instead of a
set of well-formed questions. -/
theorem perplexity_failure_returns_error :
    generate_mcq_direct_perplexity true (PerplexityOutcome.requestFailed "timeout")
        id (fun _ o => o)
      = Except.error "API request failed: timeout" ∧
    (generate_mcq_direct_perplexity true (PerplexityOutcome.requestFailed "timeout")
        id (fun _ o => o)).toOption = none :=
  ⟨rfl, rfl⟩

/-! ## Answer submission (routes/api_routes.py, submit_answer)

The route loads the session, checks only ownership and the presence of the
two fields (`if not all([question_number, answer_text])` - Python
truthiness, so question number 0 and empty text are "missing"), then
upserts the `StudentAnswer` row found by
`filter_by(viva_session_id, question_number).first()`.  There is no check
of `viva.status` anywhere in the route. -/

/-- A session together with its `student_answers` rows
(question_number, answer_text). -/
structure ExamState where
  session : VivaSession
  answers : List (Nat × String)
deriving Repr, DecidableEq

inductive SubmitResult where
  /-- 403: the session belongs to another student -/
  | unauthorized
  /-- 400: `Missing required fields` -/
  | missingFields
  /-- 200: `Answer saved successfully` -/
  | saved (question_number : Nat)
deriving Repr, DecidableEq

/-- Overwrite the `answer_text` of the first row with this question
number (the row `.first()` returned). -/
def updateFirstAnswer : List (Nat × String) → Nat → String → List (Nat × String)
  | [], _, _ => []
  | (k, v) :: rest, qn, text =>
    if k = qn then (k, text) :: rest else (k, v) :: updateFirstAnswer rest qn text

/-- The upsert of `submit_answer` (lines 31-47): update the existing row
if one exists, otherwise add a new row. -/
def upsertAnswer (rows : List (Nat × String)) (qn : Nat) (text : String) :
    List (Nat × String) :=
  match alookup qn rows with
  | some _ => updateFirstAnswer rows qn text
  | none => rows ++ [(qn, text)]

/-- `api_routes.submit_answer`: ownership check, required-fields check,
upsert.  No session-status check. -/
def submit_answer (st : ExamState) (current_user_id : Nat) (question_number : Nat)
    (answer_text : String) : SubmitResult × ExamState :=
  if st.session.student_id ≠ current_user_id then (SubmitResult.unauthorized, st)
  else if question_number = 0 ∨ answer_text = "" then (SubmitResult.missingFields, st)
  else (SubmitResult.saved question_number,
        { st with answers := upsertAnswer st.answers question_number answer_text })

/-- `exSession` finished with marks 6. -/
def exCompletedSession : VivaSession :=
  { exSession with status := "completed", obtained_marks := 6, completed_at := some 200 }

/-- The finished session plus one stored answer row. -/
def exCompletedState : ExamState :=
  { session := exCompletedSession, answers := [(1, "A")] }

/-- C8 counterexample: the owner submits answer "B" for question 2 against
the already-completed session; far from being rejected with a
NotInProgress error, the submission succeeds and a new answer row is
stored. -/
theorem submit_answer_accepts_completed_session :
    (submit_answer exCompletedState 7 2 "B").1 = SubmitResult.saved 2 ∧
    (submit_answer exCompletedState 7 2 "B").2.answers = [(1, "A"), (2, "B")] ∧
    exCompletedState.session.status = "completed" := by
  refine ⟨by decide, by decide, by decide⟩

/-- C8 amended: `submit_answer` gates only on ownership and field
presence; for every session state - `in_progress`, `completed`,
`violated`, anything - an owned submission with a nonzero question number
and nonempty text succeeds and upserts the answer row.  There is no
NotInProgress rejection. -/
theorem submit_answer_ignores_status (st : ExamState) (uid qn : Nat) (text : String)
    (hown : st.session.student_id = uid) (hqn : qn ≠ 0) (htext : text ≠ "") :
    (submit_answer st uid qn text).1 = SubmitResult.saved qn ∧
    (submit_answer st uid qn text).2.answers = upsertAnswer st.answers qn text ∧
    (submit_answer st uid qn text).2.session = st.session := by
  simp [submit_answer, hown, hqn, htext]

/-- `exSession` terminated as violated, with no stored answers. -/
def exViolatedState : ExamState :=
  { session := exViolated, answers := [] }

/-- Witness for the amended C8 at a violated session. -/
theorem submit_answer_ignores_status_witness :
    (submit_answer exViolatedState 7 3 "C").1 = SubmitResult.saved 3 ∧
    (submit_answer exViolatedState 7 3 "C").2.answers = upsertAnswer exViolatedState.answers 3 "C" ∧
    (submit_answer exViolatedState 7 3 "C").2.session = exViolatedState.session :=
  submit_answer_ignores_status exViolatedState 7 3 "C" (by decide) (by decide) (by decide)

/-! ## Answer upsert idempotence (C9) -/

/-- Number of stored rows for one question number. -/
def countAnswerRows (rows : List (Nat × String)) (qn : Nat) : Nat :=
  (rows.filter (fun r => r.1 == qn)).length

/-- Apply a sequence of submissions for one question number. -/
def applyAnswerSubmissions (rows : List (Nat × String)) (qn : Nat) :
    List String → List (Nat × String)
  | [] => rows
  | text :: rest => applyAnswerSubmissions (upsertAnswer rows qn text) qn rest

theorem countAnswerRows_cons (k : Nat) (v : String) (tl : List (Nat × String)) (qn : Nat) :
    countAnswerRows ((k, v) :: tl) qn
      = if k = qn then countAnswerRows tl qn + 1 else countAnswerRows tl qn := by
  by_cases hk : k = qn <;> simp [countAnswerRows, List.filter_cons, hk]

theorem countAnswerRows_of_alookup_none {rows : List (Nat × String)} {qn : Nat}
    (h : alookup qn rows = none) : countAnswerRows rows qn = 0 := by
  induction rows with
  | nil => rfl
  | cons hd tl ih =>
    obtain ⟨k, v⟩ := hd
    by_cases hk : k = qn
    · simp [alookup, hk] at h
    · simp [alookup, hk] at h
      rw [countAnswerRows_cons, if_neg hk]
      exact ih h

theorem one_le_countAnswerRows_of_alookup_some {rows : List (Nat × String)} {qn : Nat}
    {v : String} (h : alookup qn rows = some v) : 1 ≤ countAnswerRows rows qn := by
  induction rows with
  | nil => simp [alookup] at h
  | cons hd tl ih =>
    obtain ⟨k, w⟩ := hd
    by_cases hk : k = qn
    · rw [countAnswerRows_cons, if_pos hk]
      omega
    · simp [alookup, hk] at h
      rw [countAnswerRows_cons, if_neg hk]
      exact ih h

theorem countAnswerRows_updateFirstAnswer (rows : List (Nat × String)) (qn : Nat)
    (text : String) :
    countAnswerRows (updateFirstAnswer rows qn text) qn = countAnswerRows rows qn := by
  induction rows with
  | nil => rfl
  | cons hd tl ih =>
    obtain ⟨k, v⟩ := hd
    by_cases hk : k = qn
    · simp [updateFirstAnswer, hk, countAnswerRows_cons]
    · simp [updateFirstAnswer, hk, countAnswerRows_cons]
      exact ih

theorem alookup_updateFirstAnswer {rows : List (Nat × String)} {qn : Nat} {v : String}
    (h : alookup qn rows = some v) (text : String) :
    alookup qn (updateFirstAnswer rows qn text) = some text := by
  induction rows with
  | nil => simp [alookup] at h
  | cons hd tl ih =>
    obtain ⟨k, w⟩ := hd
    by_cases hk : k = qn
    · simp [updateFirstAnswer, alookup, hk]
    · simp [alookup, hk] at h
      simp [updateFirstAnswer, alookup, hk]
      exact ih h

theorem alookup_append_single {rows : List (Nat × String)} {qn : Nat}
    (h : alookup qn rows = none) (text : String) :
    alookup qn (rows ++ [(qn, text)]) = some text := by
  induction rows with
  | nil => simp [alookup]
  | cons hd tl ih =>
    obtain ⟨k, w⟩ := hd
    by_cases hk : k = qn
    · simp [alookup, hk] at h
    · simp [alookup, hk] at h ⊢
      exact ih h

theorem countAnswerRows_append_single (rows : List (Nat × String)) (qn : Nat)
    (text : String) :
    countAnswerRows (rows ++ [(qn, text)]) qn = countAnswerRows rows qn + 1 := by
  simp [countAnswerRows, List.filter_append]

theorem upsertAnswer_lookup (rows : List (Nat × String)) (qn : Nat) (text : String) :
    alookup qn (upsertAnswer rows qn text) = some text := by
  unfold upsertAnswer
  cases hl : alookup qn rows with
  | none => exact alookup_append_single hl text
  | some v => exact alookup_updateFirstAnswer hl text

theorem upsertAnswer_count {rows : List (Nat × String)} {qn : Nat} (text : String)
    (h : countAnswerRows rows qn ≤ 1) :
    countAnswerRows (upsertAnswer rows qn text) qn = 1 := by
  unfold upsertAnswer
  cases hl : alookup qn rows with
  | none => rw [countAnswerRows_append_single, countAnswerRows_of_alookup_none hl]
  | some v =>
    rw [countAnswerRows_updateFirstAnswer]
    exact Nat.le_antisymm h (one_le_countAnswerRows_of_alookup_some hl)

/-- C9: Answer upsert idempotence.  Starting from any answer table that
honors the unique constraint (at most one row for the question number),
after any nonempty sequence of submissions for that question number
exactly one row exists for it and its text is the most recent submission;
later submissions overwrite instead of duplicating. -/
theorem answer_upsert_idempotent (rows : List (Nat × String)) (qn : Nat)
    (texts : List String) (hunique : countAnswerRows rows qn ≤ 1) (hne : texts ≠ []) :
    countAnswerRows (applyAnswerSubmissions rows qn texts) qn = 1 ∧
    alookup qn (applyAnswerSubmissions rows qn texts) = texts.getLast? := by
  induction texts generalizing rows with
  | nil => exact absurd rfl hne
  | cons t rest ih =>
    have hcount : countAnswerRows (upsertAnswer rows qn t) qn = 1 := upsertAnswer_count t hunique
    cases rest with
    | nil =>
      exact ⟨hcount, upsertAnswer_lookup rows qn t⟩
    | cons t' rest' =>
      have hstep := ih (upsertAnswer rows qn t) (Nat.le_of_eq hcount) (by simp)
      exact ⟨hstep.1, by rw [List.getLast?_cons_cons]; exact hstep.2⟩

/-- Witness for C9: two submissions for question 3 ("A" then "C") on an
empty table leave exactly one row holding "C". -/
theorem answer_upsert_idempotent_witness :
    countAnswerRows (applyAnswerSubmissions [] 3 ["A", "C"]) 3 = 1 ∧
    alookup 3 (applyAnswerSubmissions [] 3 ["A", "C"]) = (["A", "C"] : List String).getLast? :=
  answer_upsert_idempotent [] 3 ["A", "C"] (by decide) (by decide)

/-! ## Save-marks finalization (routes/viva_routes.py, save_marks)

The route resolves the question set (session store first, request payload
as fallback), then branches on the client-supplied `score`: when present
it is used verbatim with `total = 10`; otherwise `calculate_score` runs on
the resolved questions and submitted answers; with neither, a
"No questions available for scoring" error is returned before any state
change.  On success the owned session row (if any) is overwritten via the
unguarded update, the mark is written to the Roster Store when the sheets
service is configured, and the stored question entry is cleared. -/

/-- Python truthiness of an optional integer id (`if viva_session_id:`):
absent and 0 are falsy. -/
def optNatTruthy : Option Nat → Bool
  | none => false
  | some n => n != 0

/-- `session_key = f"{session_id}:{experiment_id or 'manual'}"`. -/
def sessionKey (session_id : String) (experiment_id : Nat) : String :=
  session_id ++ ":" ++ (if experiment_id = 0 then "manual" else toString experiment_id)

/-- The request body of `save_marks`. -/
structure SaveMarksRequest where
  experiment_name : String
  experiment_id : Nat
  answers : List (String × String)
  session_id : String
  viva_session_id : Option Nat
  score : Option Int
  questions : List Question
deriving Repr, DecidableEq

/-- The state `save_marks` reads: the in-memory session question store and
the session row its `viva_session_id` query resolved to. -/
structure SaveMarksState where
  store : List (String × List Question)
  session : Option VivaSession
deriving Repr, DecidableEq

/-- Everything `save_marks` produces: the HTTP payload (score, total) or
an error, the session row afterwards, the cell write handed to the Roster
Store (roll number, experiment number, marks), and the store afterwards. -/
structure SaveMarksOutcome where
  response : Except String (Int × Nat)
  session : Option VivaSession
  rosterWrite : Option (String × Nat × Int)
  store : List (String × List Question)
deriving Repr

/-- `stored_questions or data.get('questions', [])`. -/
def storedOrRequestQuestions (st : SaveMarksState) (req : SaveMarksRequest) :
    List Question :=
  let stored := (alookup (sessionKey req.session_id req.experiment_id) st.store).getD []
  if stored ≠ [] then stored else req.questions

/-- `viva_routes.save_marks`. -/
def save_marks (st : SaveMarksState) (req : SaveMarksRequest)
    (current_user_id : Nat) (roll_number : String) (now : Nat)
    (sheetsConfigured : Bool) : SaveMarksOutcome :=
  let key := sessionKey req.session_id req.experiment_id
  let questions := storedOrRequestQuestions st req
  let scored : Option (Int × Nat) :=
    match req.score with
    | some clientScore => some (clientScore, 10)
    | none =>
      if questions ≠ [] then
        some (((calculate_score questions req.answers).score : Int),
          (calculate_score questions req.answers).total)
      else none
  match scored with
  | none =>
    { response := Except.error "No questions available for scoring",
      session := st.session, rosterWrite := none, store := st.store }
  | some (score, total) =>
    { response := Except.ok (score, total),
      session :=
        match st.session with
        | some v =>
          if optNatTruthy req.viva_session_id = true ∧ v.student_id = current_user_id then
            some (save_marks_update v score now)
          else some v
        | none => none,
      rosterWrite :=
        if sheetsConfigured ∧ roll_number ≠ "" then
          some (roll_number, (if req.experiment_id = 0 then 1 else req.experiment_id), score)
        else none,
      store := st.store.filter (fun kv => kv.1 != key) }

/-- C10: Client-supplied score override.  When the request carries a
non-null `score`, that integer becomes the response score (with total 10),
is written into the owned session row's `obtained_marks`, and is the value
handed to the Roster Store - and the result is independent of the
submitted answers, the request's question payload, and the stored question
set (no comparison ever happens).  Server-side scoring via
`calculate_score` runs only when no client score is supplied. -/
theorem save_marks_client_score_override (st : SaveMarksState) (req : SaveMarksRequest)
    (current_user_id : Nat) (roll_number : String) (now : Nat) (sheetsConfigured : Bool) :
    (∀ s, req.score = some s →
      ((save_marks st req current_user_id roll_number now sheetsConfigured).response
          = Except.ok (s, 10) ∧
        (∀ v, st.session = some v → optNatTruthy req.viva_session_id = true →
          v.student_id = current_user_id →
            (save_marks st req current_user_id roll_number now sheetsConfigured).session
              = some (save_marks_update v s now)) ∧
        (sheetsConfigured = true → roll_number ≠ "" →
          (save_marks st req current_user_id roll_number now sheetsConfigured).rosterWrite
            = some (roll_number,
                (if req.experiment_id = 0 then 1 else req.experiment_id), s)) ∧
        (∀ answers' questions' store',
          (save_marks { st with store := store' }
              { req with answers := answers', questions := questions' }
              current_user_id roll_number now sheetsConfigured).response
            = (save_marks st req current_user_id roll_number now sheetsConfigured).response ∧
          (save_marks { st with store := store' }
              { req with answers := answers', questions := questions' }
              current_user_id roll_number now sheetsConfigured).session
            = (save_marks st req current_user_id roll_number now sheetsConfigured).session ∧
          (save_marks { st with store := store' }
              { req with answers := answers', questions := questions' }
              current_user_id roll_number now sheetsConfigured).rosterWrite
            = (save_marks st req current_user_id roll_number now sheetsConfigured).rosterWrite))) ∧
    (req.score = none → storedOrRequestQuestions st req ≠ [] →
      (save_marks st req current_user_id roll_number now sheetsConfigured).response
        = Except.ok
            (((calculate_score (storedOrRequestQuestions st req) req.answers).score : Int),
              (calculate_score (storedOrRequestQuestions st req) req.answers).total)) := by
  constructor
  · intro s hs
    refine ⟨?_, ?_, ?_, ?_⟩
    · simp [save_marks, hs]
    · intro v hv hid hown
      simp [save_marks, hs, hv, hid, hown]
    · intro hsheets hroll
      simp [save_marks, hs, hsheets, hroll]
    · intro answers' questions' store'
      refine ⟨?_, ?_, ?_⟩ <;> simp [save_marks, hs]
  · intro hs hq
    simp [save_marks, hs, hq]

/-- A concrete save-marks state: empty question store, session row
`exSession` (owned by student 7). -/
def exSaveState : SaveMarksState :=
  { store := [], session := some exSession }

/-- A concrete request carrying a client score of 4. -/
def exSaveReq : SaveMarksRequest :=
  { experiment_name := "Exp 2", experiment_id := 2, answers := a7,
    session_id := "s1", viva_session_id := some 1, score := some 4, questions := [] }

/-- The same request without a client score but with a question payload. -/
def exSaveReqNone : SaveMarksRequest :=
  { experiment_name := "Exp 2", experiment_id := 2, answers := a7,
    session_id := "s1", viva_session_id := some 1, score := none, questions := q10 }

/-- Witness for C10: the client score 4 overrides everything (response,
session marks, roster write), and without a client score the response is
server-scored via `calculate_score`. -/
theorem save_marks_client_score_override_witness :
    (save_marks exSaveState exSaveReq 7 "R42" 300 true).response = Except.ok (4, 10) ∧
    (save_marks exSaveState exSaveReq 7 "R42" 300 true).session
      = some (save_marks_update exSession 4 300) ∧
    (save_marks exSaveState exSaveReq 7 "R42" 300 true).rosterWrite
      = some ("R42", 2, 4) ∧
    (save_marks exSaveState exSaveReqNone 7 "R42" 300 true).response
      = Except.ok
          (((calculate_score (storedOrRequestQuestions exSaveState exSaveReqNone)
              exSaveReqNone.answers).score : Int),
            (calculate_score (storedOrRequestQuestions exSaveState exSaveReqNone)
              exSaveReqNone.answers).total) := by
  obtain ⟨h1, h2, h3, _⟩ :=
    (save_marks_client_score_override exSaveState exSaveReq 7 "R42" 300 true).1 4 rfl
  have h4 :=
    (save_marks_client_score_override exSaveState exSaveReqNone 7 "R42" 300 true).2 rfl
      (by decide)
  have hroster := h3 rfl (by decide)
  have hsession := h2 exSession rfl (by decide) rfl
  have hroster2 : (save_marks exSaveState exSaveReq 7 "R42" 300 true).rosterWrite
      = some ("R42", 2, 4) := by
    rw [hroster]
    norm_num [exSaveReq]
  exact ⟨h1, hsession, hroster2, h4⟩
